import Mathlib

/-!
Verification of the ride-hailing coordination core
(`ride-service`: trip ledger, matching engine, geo index, tracking hub).

The Go source is shallowly embedded: the PostgreSQL `trips` table becomes a
list of `Trip` rows, conditional `UPDATE ... WHERE id AND status` statements
become map/filter pairs returning the updated table together with the number
of affected rows, float64 coordinates become real numbers, and the Kafka
consumer handlers become pure functions from a decoded payload and the
geo-store outcome to an acknowledge/redeliver decision.
-/

namespace RideService

/-- Trip lifecycle states, from `internal/trips/model.go` (`StatusRequested` … `StatusCancelled`). -/
inductive TripStatus where
  | REQUESTED
  | MATCHING
  | DRIVER_ASSIGNED
  | STARTED
  | COMPLETED
  | CANCELLED
deriving DecidableEq, Repr

/-- A row of the `trips` table, from `internal/trips/model.go` (`Trip`).
Timestamps are modelled as abstract ticks (`Nat`). -/
structure Trip where
  id : String
  riderId : String
  driverId : Option String
  pickupLat : ℝ
  pickupLng : ℝ
  dropLat : ℝ
  dropLng : ℝ
  fare : Option ℝ
  status : TripStatus
  requestedAt : Option Nat
  startedAt : Option Nat
  completedAt : Option Nat
  createdAt : Nat

/-- Body of `POST /trips/request`, from `internal/trips/model.go` (`TripRequest`). -/
structure TripRequest where
  pickupLat : ℝ
  pickupLng : ℝ
  dropLat : ℝ
  dropLng : ℝ

/-- Errors surfaced by ledger operations (`errors.New` cases in
`internal/trips/service.go`). -/
inductive LedgerError where
  | conflict
  | notFound
  | invalidState
  | infra
deriving DecidableEq, Repr

/-- The `trips` table: one row per trip. -/
abbrev Db := List Trip

/-- `SELECT ... FROM trips WHERE id=$1` (`Service.GetByID`): the first row whose
primary key matches. -/
def findTrip (db : Db) (tripId : String) : Option Trip :=
  db.find? (fun t => t.id == tripId)

/-- Row predicate of the `AssignDriver` UPDATE:
`WHERE id=$3 AND status IN (REQUESTED, MATCHING)`. -/
def assignPred (tripId : String) (t : Trip) : Bool :=
  t.id == tripId && (t.status == .REQUESTED || t.status == .MATCHING)

/-- Effect of the `AssignDriver` UPDATE on one row: rows matching the WHERE
clause get the driver and status `DRIVER_ASSIGNED`; others are untouched. -/
def assignRow (tripId driverId : String) (t : Trip) : Trip :=
  if assignPred tripId t then
    { t with driverId := some driverId, status := .DRIVER_ASSIGNED }
  else t

/-- The conditional UPDATE of `Service.AssignDriver`
(`UPDATE trips SET driver_id=$1, status=DRIVER_ASSIGNED WHERE id=$3 AND status IN ($4,$5)`):
returns the table after the update together with `RowsAffected`. -/
def assignUpdate (db : Db) (tripId driverId : String) : Db × Nat :=
  (db.map (assignRow tripId driverId), (db.filter (assignPred tripId)).length)

/-- `Service.AssignDriver`: run the conditional update; zero rows affected is a
conflict ("trip not found or invalid state for assignment"), otherwise re-read
the row with `GetByID`. -/
def AssignDriver (db : Db) (tripId driverId : String) : Db × Except LedgerError Trip :=
  ((assignUpdate db tripId driverId).1,
   if (assignUpdate db tripId driverId).2 = 0 then .error .conflict
   else match findTrip (assignUpdate db tripId driverId).1 tripId with
        | some t => .ok t
        | none => .error .notFound)

/-- Row predicate of the `Start` UPDATE: `WHERE id=$3 AND status=DRIVER_ASSIGNED`. -/
def startPred (tripId : String) (t : Trip) : Bool :=
  t.id == tripId && t.status == .DRIVER_ASSIGNED

/-- Effect of the `Start` UPDATE on one row. -/
def startRow (tripId : String) (now : Nat) (t : Trip) : Trip :=
  if startPred tripId t then { t with status := .STARTED, startedAt := some now }
  else t

/-- The conditional UPDATE of `Service.Start`
(`UPDATE trips SET status=STARTED, started_at=$2 WHERE id=$3 AND status=$4`). -/
def startUpdate (db : Db) (tripId : String) (now : Nat) : Db × Nat :=
  (db.map (startRow tripId now), (db.filter (startPred tripId)).length)

/-- `Service.Start`: conditional update requiring `DRIVER_ASSIGNED`; zero rows
affected is a conflict ("trip not found or not in DRIVER_ASSIGNED state"). -/
def Start (db : Db) (tripId : String) (now : Nat) : Db × Except LedgerError Trip :=
  ((startUpdate db tripId now).1,
   if (startUpdate db tripId now).2 = 0 then .error .conflict
   else match findTrip (startUpdate db tripId now).1 tripId with
        | some t => .ok t
        | none => .error .notFound)

/-- The row inserted by `Service.Request`: status `REQUESTED`, requested-at
and creation timestamps set, no driver, no fare. -/
def newTrip (tripId riderId : String) (req : TripRequest) (now : Nat) : Trip :=
  { id := tripId, riderId := riderId, driverId := none
    pickupLat := req.pickupLat, pickupLng := req.pickupLng
    dropLat := req.dropLat, dropLng := req.dropLng
    fare := none, status := .REQUESTED
    requestedAt := some now, startedAt := none, completedAt := none
    createdAt := now }

/-- `Service.Request` (`INSERT INTO trips ... VALUES (... REQUESTED ...)`): a
fresh row with status `REQUESTED`; inserting a duplicate primary key fails at
the database and leaves the table unchanged. -/
def Request (db : Db) (tripId riderId : String) (req : TripRequest) (now : Nat) :
    Db × Except LedgerError Trip :=
  if db.any (fun t => t.id == tripId) then (db, .error .infra)
  else (db ++ [newTrip tripId riderId req now], .ok (newTrip tripId riderId req now))

/-- The UPDATE run by the `driver.assigned` consumer
(`Service.StartDriverAssignedConsumer`): textually the same conditional update
as `AssignDriver`, with `RowsAffected` ignored. -/
def driverAssignedConsumerUpdate (db : Db) (tripId driverId : String) : Db :=
  (assignUpdate db tripId driverId).1

/-- Earth radius constant `R = 6371.0` of `haversineKm` in
`internal/trips/service.go`. -/
noncomputable def earthRadiusKm : ℝ := 6371

/-- Go's `math.Atan2(y, x)`: quadrant-aware arctangent. -/
noncomputable def atan2 (y x : ℝ) : ℝ :=
  if 0 < x then Real.arctan (y / x)
  else if x < 0 then
    (if 0 ≤ y then Real.arctan (y / x) + Real.pi else Real.arctan (y / x) - Real.pi)
  else
    (if 0 < y then Real.pi / 2 else if y < 0 then -(Real.pi / 2) else 0)

/-- The intermediate `a` of `haversineKm`:
`Sin(dLat/2)*Sin(dLat/2) + Cos(lat1*π/180)*Cos(lat2*π/180)*Sin(dLng/2)*Sin(dLng/2)`
with `dLat = (lat2-lat1)*π/180` and `dLng = (lng2-lng1)*π/180`. -/
noncomputable def havA (lat1 lng1 lat2 lng2 : ℝ) : ℝ :=
  Real.sin ((lat2 - lat1) * Real.pi / 180 / 2) * Real.sin ((lat2 - lat1) * Real.pi / 180 / 2) +
    Real.cos (lat1 * Real.pi / 180) * Real.cos (lat2 * Real.pi / 180) *
      (Real.sin ((lng2 - lng1) * Real.pi / 180 / 2) * Real.sin ((lng2 - lng1) * Real.pi / 180 / 2))

/-- `haversineKm` from `internal/trips/service.go`:
`R * 2 * math.Atan2(math.Sqrt(a), math.Sqrt(1-a))`. -/
noncomputable def haversineKm (lat1 lng1 lat2 lng2 : ℝ) : ℝ :=
  earthRadiusKm * 2 *
    atan2 (Real.sqrt (havA lat1 lng1 lat2 lng2)) (Real.sqrt (1 - havA lat1 lng1 lat2 lng2))

/-- Distance used by `Service.End`: `*distKm` when the pointer is non-nil and
positive, otherwise the haversine distance from pickup to drop. -/
noncomputable def tripDistanceKm (t : Trip) (distKm : Option ℝ) : ℝ :=
  match distKm with
  | some d =>
      if 0 < d then d
      else haversineKm t.pickupLat t.pickupLng t.dropLat t.dropLng
  | none => haversineKm t.pickupLat t.pickupLng t.dropLat t.dropLng

/-- The fare formula of `Service.End`: `fare := 50.0 + km*12.0`. -/
noncomputable def fareFor (km : ℝ) : ℝ := 50 + km * 12

/-- Effect of the `End` UPDATE on one row: its WHERE clause is
`WHERE id=$4` — keyed on the id alone, with no status condition. -/
noncomputable def endRow (tripId : String) (fare : ℝ) (now : Nat) (t : Trip) : Trip :=
  if t.id == tripId then
    { t with status := .COMPLETED, fare := some fare, completedAt := some now }
  else t

/-- The unconditional UPDATE of `Service.End`
(`UPDATE trips SET status=COMPLETED, fare=$2, completed_at=$3 WHERE id=$4`):
keyed on the id alone, with the affected-row count. -/
noncomputable def endUpdate (db : Db) (tripId : String) (fare : ℝ) (now : Nat) : Db × Nat :=
  (db.map (endRow tripId fare now), (db.filter (fun t => t.id == tripId)).length)

/-- `Service.End`: read the trip (`GetByID`), reject unless `STARTED`, compute
distance and fare, run the id-keyed update (its `RowsAffected` is ignored by
the code), and re-read the row. -/
noncomputable def End (db : Db) (tripId : String) (distKm : Option ℝ) (now : Nat) :
    Db × Except LedgerError Trip :=
  match findTrip db tripId with
  | none => (db, .error .notFound)
  | some t =>
      if t.status = .STARTED then
        ((endUpdate db tripId (fareFor (tripDistanceKm t distKm)) now).1,
         match findTrip (endUpdate db tripId (fareFor (tripDistanceKm t distKm)) now).1
             tripId with
         | some t' => .ok t'
         | none => .error .notFound)
      else (db, .error .invalidState)

/-! ### Matching engine (`internal/matching`, `internal/events`) -/

/-- Coordinate pair of event payloads (`events.LatLng`). -/
structure LatLng where
  lat : ℝ
  lng : ℝ

/-- `events.RideRequestedEvent`, published to `ride.requested`. -/
structure RideRequestedEvent where
  tripId : String
  riderId : String
  pickup : LatLng
  drop : LatLng
  requestedAt : String

/-- Outcome of the `GetNearbyDrivers` call made by the matcher: either the
store is unreachable (the call returns a non-nil error) or it returns a
(possibly empty) ascending list of driver ids. -/
inductive GeoQueryResult where
  | infraError
  | found (drivers : List String)

/-- Non-nil error values a matcher handler can return. -/
inductive MatchError where
  | unmarshal
  | infra
  | publish
deriving DecidableEq, Repr

/-- Broker-side effect of the handler's return value. Modelled from the spec:
the `ride-service/pkg/kafka` `Subscribe` wrapper is not under `src/`; per the
spec ("message is **not** acknowledged, triggering broker redelivery
(at-least-once)" on a returned error, offset committed on success) and the
in-code comments ("return error so Kafka does NOT commit the offset and
retries" / "commit offset"), a handler returning a non-nil error leaves the
message unacknowledged and redelivered, and a nil return acknowledges it. -/
inductive BrokerOutcome where
  | ack
  | redeliver
deriving DecidableEq, Repr

/-- Modelled from the spec (see `BrokerOutcome`): how the missing
`pkga.Subscribe` wrapper treats the handler's return value. -/
def subscribeOutcome (r : Except MatchError (Option String)) : BrokerOutcome :=
  match r with
  | .ok _ => .ack
  | .error _ => .redeliver

/-- The `ride.requested` handler of `Matcher.Start` in
`internal/matching/matcher.go`: a failed unmarshal returns the error; a
geo-store error *or* an empty result returns nil
(`if err != nil || len(drivers) == 0 { return nil }`); on a hit, a failed
publish returns the error, otherwise the matched driver is removed from the
pool and nil is returned. The returned `Option String` is the driver the
handler assigned, if any. -/
def matcherHandleRideRequested (payload : Option RideRequestedEvent)
    (geo : GeoQueryResult) (publishOk : Bool) : Except MatchError (Option String) :=
  match payload with
  | none => .error .unmarshal
  | some _ =>
      match geo with
      | .infraError => .ok none
      | .found [] => .ok none
      | .found (d :: _) => if publishOk then .ok (some d) else .error .publish

/-- The revised `ride.requested` handler (the `Matcher.Start` variant carried
alongside `internal/events/events.go`): a failed unmarshal returns the error; a
geo-store error returns the error ("return error so Kafka does NOT commit the
offset and retries"); an empty result returns nil ("expected case, commit
offset"); a failed publish returns the error; otherwise the matched driver is
removed and nil is returned. -/
def matcherHandleRideRequestedRevised (payload : Option RideRequestedEvent)
    (geo : GeoQueryResult) (publishOk : Bool) : Except MatchError (Option String) :=
  match payload with
  | none => .error .unmarshal
  | some _ =>
      match geo with
      | .infraError => .error .infra
      | .found [] => .ok none
      | .found (d :: _) => if publishOk then .ok (some d) else .error .publish

/-! ### Geo index (`pkg/redis`) -/

/-- One member of the `driver:locations` GEO set. -/
structure GeoEntry where
  driverId : String
  lat : ℝ
  lng : ℝ

/-- The `driver:locations` GEO set. -/
abbrev GeoIndex := List GeoEntry

/-- Great-circle distance from a query point to a stored driver position. -/
noncomputable def geoDistKm (lat lng : ℝ) (e : GeoEntry) : ℝ :=
  haversineKm lat lng e.lat e.lng

/-- Modelled from the spec: the Redis `GEOSEARCH` backing
`Client.GetNearbyDrivers` (`pkg/redis`, `GeoSearchQuery` with `Radius` in km,
`Count`, `Sort: "ASC"`); Redis itself is external infrastructure absent from
`src/`. Members within `radiusKm` of the query point, sorted by ascending
distance, truncated to `count`. -/
noncomputable def geoSearchEntries (idx : GeoIndex) (lat lng radiusKm : ℝ) (count : Nat) :
    List GeoEntry :=
  ((idx.filter (fun e => decide (geoDistKm lat lng e ≤ radiusKm))).insertionSort
      (fun a b => geoDistKm lat lng a ≤ geoDistKm lat lng b)).take count

/-- `Client.GetNearbyDrivers`: the driver ids of the GEO search result. -/
noncomputable def GetNearbyDrivers (idx : GeoIndex) (lat lng radiusKm : ℝ) (count : Nat) :
    List String :=
  (geoSearchEntries idx lat lng radiusKm count).map (·.driverId)

/-- Modelled from the spec: Redis `GEOADD` backing `Client.SetDriverLocation`
(set or overwrite a member's position). -/
def SetDriverLocation (idx : GeoIndex) (driverId : String) (lat lng : ℝ) : GeoIndex :=
  if idx.any (fun e => e.driverId == driverId) then
    idx.map fun e => if e.driverId == driverId then { e with lat := lat, lng := lng } else e
  else idx ++ [⟨driverId, lat, lng⟩]

/-! ### Input validation (`pkg/validation`) and the driver location handler -/

/-- `validation.ValidateCoordinates`:
`lat >= -90 && lat <= 90 && lng >= -180 && lng <= 180`. Caller-supplied JSON
numbers are modelled as rationals. -/
def ValidateCoordinates (lat lng : ℚ) : Bool :=
  -90 ≤ lat && lat ≤ 90 && -180 ≤ lng && lng ≤ 180

/-- HTTP statuses written by `drivers.Handler.UpdateLocation`. -/
inductive HttpStatus where
  | ok
  | badRequest
  | serverError
deriving DecidableEq, Repr

/-- `drivers.Handler.UpdateLocation` (`internal/drivers/handler.go`): reject
out-of-range coordinates with 400 before calling the service, otherwise store
the position in the geo index via `Service.UpdateLocation` and return 200. -/
noncomputable def UpdateLocation (idx : GeoIndex) (driverId : String) (lat lng : ℚ) :
    HttpStatus × GeoIndex :=
  if ValidateCoordinates lat lng then
    (.ok, SetDriverLocation idx driverId (lat : ℝ) (lng : ℝ))
  else (.badRequest, idx)

/-! ### Tracking hub (`internal/tracking`) -/

/-- A live WebSocket connection handle (`*safeConn`). -/
abbrev Conn := Nat

/-- `Hub.conns`: the `map[string][]*safeConn` from trip id to subscriber
connections, as an association list. -/
abbrev HubConns := List (String × List Conn)

/-- Reading `h.conns[tripID]`: a missing key yields the empty (nil) slice. -/
def hubGet (h : HubConns) (tripId : String) : List Conn :=
  match h.find? (fun p => p.1 == tripId) with
  | some p => p.2
  | none => []

/-- Writing `h.conns[tripID] = v`: replace the entry, or add it if absent. -/
def hubSet (h : HubConns) (tripId : String) (v : List Conn) : HubConns :=
  if h.any (fun p => p.1 == tripId) then
    h.map fun p => if p.1 == tripId then (tripId, v) else p
  else h ++ [(tripId, v)]

/-- `delete(h.conns, tripID)`. -/
def hubDelete (h : HubConns) (tripId : String) : HubConns :=
  h.filter (fun p => !(p.1 == tripId))

/-- The subscribe step of `Hub.HandleWS`:
`h.conns[tripID] = append(h.conns[tripID], conn)`. -/
def hubSubscribe (h : HubConns) (tripId : String) (c : Conn) : HubConns :=
  hubSet h tripId (hubGet h tripId ++ [c])

/-- Remove the first occurrence of `c`, as the `for ... break` loop of
`Hub.removeConn`; `none` when `c` is not present (no write happens). -/
def removeFirst (conns : List Conn) (c : Conn) : Option (List Conn) :=
  match conns with
  | [] => none
  | x :: rest =>
      if x == c then some rest
      else match removeFirst rest c with
           | some rest' => some (x :: rest')
           | none => none

/-- The slice-rewrite step of `Hub.removeConn`: when the connection is found,
write back the slice with it removed; otherwise no write happens. -/
def hubRemoveStep (h : HubConns) (tripId : String) (c : Conn) : HubConns :=
  match removeFirst (hubGet h tripId) c with
  | some conns' => hubSet h tripId conns'
  | none => h

/-- The cleanup step of `Hub.removeConn`:
`if len(h.conns[tripID]) == 0 { delete(h.conns, tripID) }`. -/
def hubDropIfEmpty (h : HubConns) (tripId : String) : HubConns :=
  if (hubGet h tripId).isEmpty then hubDelete h tripId else h

/-- `Hub.removeConn` (`internal/tracking`): drop the connection from the
trip's slice (first match, then `break`), and if the remaining slice for the
trip is empty, delete the map entry. -/
def hubRemoveConn (h : HubConns) (tripId : String) (c : Conn) : HubConns :=
  hubDropIfEmpty (hubRemoveStep h tripId c) tripId

/-- A connect (`HandleWS` registration) or disconnect (`removeConn`) event. -/
inductive HubOp where
  | subscribe (tripId : String) (c : Conn)
  | unsubscribe (tripId : String) (c : Conn)

/-- Apply one hub event. -/
def applyHubOp (h : HubConns) (op : HubOp) : HubConns :=
  match op with
  | .subscribe tripId c => hubSubscribe h tripId c
  | .unsubscribe tripId c => hubRemoveConn h tripId c

/-- The hub state after a sequence of connect/disconnect events, starting from
`NewHub` (an empty map). -/
def runHubOps (ops : List HubOp) : HubConns :=
  ops.foldl applyHubOp []

/-- No trip key maps to an empty subscriber slice. -/
def hubNoEmpty (h : HubConns) : Bool :=
  h.all fun p => !p.2.isEmpty

/-! ### Ledger operation sequences (for the status-lifecycle property) -/

/-- One invocation of a ledger entry point: `Request`, `AssignDriver`,
`Start`, `End`, or the `driver.assigned` consumer's update. -/
inductive Op where
  | create (tripId riderId : String) (req : TripRequest) (now : Nat)
  | assign (tripId driverId : String)
  | consumerAssign (tripId driverId : String)
  | start (tripId : String) (now : Nat)
  | endTrip (tripId : String) (distKm : Option ℝ) (now : Nat)

/-- The table state after one ledger operation (failed operations leave the
table unchanged, as each UPDATE/INSERT only touches rows matching its WHERE
clause). -/
noncomputable def applyOp (db : Db) (op : Op) : Db :=
  match op with
  | .create tripId riderId req now => (Request db tripId riderId req now).1
  | .assign tripId driverId => (AssignDriver db tripId driverId).1
  | .consumerAssign tripId driverId => driverAssignedConsumerUpdate db tripId driverId
  | .start tripId now => (Start db tripId now).1
  | .endTrip tripId distKm now => (End db tripId distKm now).1

/-- The status of trip `tripId` observed after each operation of `ops`
(absent while the trip does not exist). -/
noncomputable def statusHistory (db : Db) (ops : List Op) (tripId : String) :
    List TripStatus :=
  match ops with
  | [] => []
  | op :: rest =>
      (match findTrip (applyOp db op) tripId with
       | some t => [t.status]
       | none => []) ++ statusHistory (applyOp db op) rest tripId

/-- Collapse consecutive repeats, leaving the sequence of distinct observed
statuses. -/
def dedupConsec : List TripStatus → List TripStatus
  | [] => []
  | [a] => [a]
  | a :: b :: rest =>
      if a = b then dedupConsec (b :: rest) else a :: dedupConsec (b :: rest)

/-- The nominal lifecycle `REQUESTED → DRIVER_ASSIGNED → STARTED → COMPLETED`. -/
def statusChain : List TripStatus :=
  [.REQUESTED, .DRIVER_ASSIGNED, .STARTED, .COMPLETED]

/-- The tail of the lifecycle starting at a given state. -/
def chainFrom : TripStatus → List TripStatus
  | .REQUESTED => [.REQUESTED, .DRIVER_ASSIGNED, .STARTED, .COMPLETED]
  | .DRIVER_ASSIGNED => [.DRIVER_ASSIGNED, .STARTED, .COMPLETED]
  | .STARTED => [.STARTED, .COMPLETED]
  | .COMPLETED => [.COMPLETED]
  | .MATCHING => []
  | .CANCELLED => []

/-- States on the nominal lifecycle. -/
def inChain : TripStatus → Bool
  | .REQUESTED => true
  | .DRIVER_ASSIGNED => true
  | .STARTED => true
  | .COMPLETED => true
  | .MATCHING => false
  | .CANCELLED => false

/-- The single successor a successful transition can produce from each state
(`MATCHING` can also move to `DRIVER_ASSIGNED` via the assignment updates). -/
def stepNext : TripStatus → Option TripStatus
  | .REQUESTED => some .DRIVER_ASSIGNED
  | .MATCHING => some .DRIVER_ASSIGNED
  | .DRIVER_ASSIGNED => some .STARTED
  | .STARTED => some .COMPLETED
  | .COMPLETED => none
  | .CANCELLED => none

/-! ## Lemmas and claim theorems -/

/-- A well-formed `ride.requested` payload used for concrete evaluations. -/
noncomputable def sampleRideRequested : RideRequestedEvent :=
  { tripId := "trip-1", riderId := "rider-1"
    pickup := ⟨0, 0⟩, drop := ⟨0, 0⟩
    requestedAt := "2026-01-01T00:00:00Z" }

/-- C2 (counterexample): in the `matcher.go` handler, a geo-store
infrastructure error on a well-formed `RideRequested` message is acknowledged
(the handler returns nil), not left for redelivery as the claim states. -/
theorem matcherGo_acks_infra_error :
    subscribeOutcome (matcherHandleRideRequested (some sampleRideRequested) .infraError true)
      = .ack :=
  rfl

/-- C2 (amended): the revised matcher handler returns the error on a geo-store
infrastructure failure, so the message is not acknowledged and is redelivered,
while an empty query result is acknowledged; the `matcher.go` handler instead
acknowledges an infrastructure error exactly like an empty result. -/
theorem matcher_infra_error_handling :
    ∀ (ev : RideRequestedEvent) (publishOk : Bool),
      subscribeOutcome (matcherHandleRideRequestedRevised (some ev) .infraError publishOk)
          = .redeliver
        ∧ subscribeOutcome (matcherHandleRideRequestedRevised (some ev) (.found []) publishOk)
            = .ack
        ∧ subscribeOutcome (matcherHandleRideRequested (some ev) .infraError publishOk)
            = .ack
        ∧ subscribeOutcome (matcherHandleRideRequested (some ev) (.found []) publishOk)
            = .ack :=
  fun _ _ => ⟨rfl, rfl, rfl, rfl⟩

/-- C3 (counterexample): a message whose payload fails to deserialize is *not*
acknowledged by either handler variant — the unmarshal error is returned, so
the broker redelivers, contrary to the claimed acknowledged drop. -/
theorem matcher_malformed_not_dropped :
    subscribeOutcome (matcherHandleRideRequested none (.found []) true) = .redeliver
      ∧ subscribeOutcome (matcherHandleRideRequestedRevised none (.found []) true)
          = .redeliver :=
  ⟨rfl, rfl⟩

/-- C3 (amended): for every inbound `RideRequested` message whose payload fails
to deserialize, both matcher handler variants return the deserialization error,
so the message is not acknowledged and the broker redelivers it. -/
theorem matcher_malformed_redelivery :
    ∀ (geo : GeoQueryResult) (publishOk : Bool),
      subscribeOutcome (matcherHandleRideRequested none geo publishOk) = .redeliver
        ∧ subscribeOutcome (matcherHandleRideRequestedRevised none geo publishOk)
            = .redeliver :=
  fun _ _ => ⟨rfl, rfl⟩

/-- The `a` term of the haversine formula is symmetric in its two points. -/
theorem havA_symm (lat1 lng1 lat2 lng2 : ℝ) :
    havA lat1 lng1 lat2 lng2 = havA lat2 lng2 lat1 lng1 := by
  unfold havA
  have h1 : (lat1 - lat2) * Real.pi / 180 / 2 = -((lat2 - lat1) * Real.pi / 180 / 2) := by
    ring
  have h2 : (lng1 - lng2) * Real.pi / 180 / 2 = -((lng2 - lng1) * Real.pi / 180 / 2) := by
    ring
  rw [h1, h2, Real.sin_neg, Real.sin_neg]
  ring

/-- The `a` term vanishes on identical coordinates. -/
theorem havA_self (lat lng : ℝ) : havA lat lng lat lng = 0 := by
  unfold havA
  simp [sub_self]

/-- C8: the haversine distance between identical coordinates is `0`, the
function is symmetric, and the Earth radius used is 6371 km. -/
theorem haversine_self_and_symm :
    ∀ (lat1 lng1 lat2 lng2 : ℝ),
      haversineKm lat1 lng1 lat1 lng1 = 0
        ∧ haversineKm lat1 lng1 lat2 lng2 = haversineKm lat2 lng2 lat1 lng1
        ∧ earthRadiusKm = 6371 := by
  intro lat1 lng1 lat2 lng2
  refine ⟨?_, ?_, rfl⟩
  · unfold haversineKm
    rw [havA_self]
    rw [Real.sqrt_zero, sub_zero, Real.sqrt_one]
    unfold atan2
    rw [if_pos one_pos, zero_div, Real.arctan_zero, mul_zero]
  · unfold haversineKm
    rw [havA_symm]

/-- C10: an out-of-range coordinate pair is rejected with a 400 before the geo
index is touched (the index is returned unchanged), and the validation accepts
exactly the pairs with latitude in `[-90, 90]` and longitude in `[-180, 180]`. -/
theorem update_location_validation :
    ∀ (idx : GeoIndex) (driverId : String) (lat lng : ℚ),
      (ValidateCoordinates lat lng = true
          ↔ (-90 ≤ lat ∧ lat ≤ 90 ∧ -180 ≤ lng ∧ lng ≤ 180))
        ∧ (ValidateCoordinates lat lng = false →
            UpdateLocation idx driverId lat lng = (.badRequest, idx))
        ∧ (ValidateCoordinates lat lng = true →
            UpdateLocation idx driverId lat lng
              = (.ok, SetDriverLocation idx driverId (lat : ℝ) (lng : ℝ))) := by
  intro idx driverId lat lng
  refine ⟨?_, ?_, ?_⟩
  · unfold ValidateCoordinates
    simp [Bool.and_eq_true, decide_eq_true_eq, and_assoc]
  · intro h
    unfold UpdateLocation
    rw [h]
    rfl
  · intro h
    unfold UpdateLocation
    rw [h]
    rfl

/-- Witness for C10: latitude 100 is rejected leaving an empty index
unchanged, and the origin passes validation. -/
theorem update_location_validation_witness :
    UpdateLocation [] "driver-1" 100 0 = (.badRequest, [])
      ∧ ValidateCoordinates 0 0 = true :=
  ⟨(update_location_validation [] "driver-1" 100 0).2.1 (by decide),
   (update_location_validation [] "driver-1" 0 0).1.mpr (by decide)⟩

/-- Reading back the key just written by `hubSet` yields the written slice. -/
theorem hubGet_hubSet (h : HubConns) (t : String) (v : List Conn) :
    hubGet (hubSet h t v) t = v := by
  unfold hubSet
  split
  next hany =>
    unfold hubGet
    rw [List.find?_map]
    have hpred : ((fun p : String × List Conn => p.1 == t) ∘
        fun p : String × List Conn => if p.1 == t then (t, v) else p)
        = fun p : String × List Conn => p.1 == t := by
      funext p
      by_cases hp : p.1 = t
      · simp [hp]
      · simp [hp]
    rw [hpred]
    rcases hfind : List.find? (fun p : String × List Conn => p.1 == t) h with _ | p0
    · rw [List.find?_eq_none] at hfind
      rw [List.any_eq_true] at hany
      obtain ⟨x, hx, hpx⟩ := hany
      exact absurd hpx (hfind x hx)
    · have hp0 : p0.1 = t := by simpa using List.find?_some hfind
      simp [hp0]
  next hany =>
    unfold hubGet
    rw [List.find?_append]
    have h1 : List.find? (fun p : String × List Conn => p.1 == t) h = none := by
      rw [List.find?_eq_none]
      intro x hx hpx
      exact hany (List.any_eq_true.mpr ⟨x, hx, hpx⟩)
    rw [h1]
    simp [List.find?]

/-- Every entry of `hubSet h t v` is either the written entry or an entry of
`h`. -/
theorem mem_hubSet (h : HubConns) (t : String) (v : List Conn)
    (p : String × List Conn) (hp : p ∈ hubSet h t v) : p = (t, v) ∨ p ∈ h := by
  unfold hubSet at hp
  split at hp
  · obtain ⟨q, hq, hfq⟩ := List.mem_map.mp hp
    by_cases hqt : (q.1 == t) = true
    · left
      rw [if_pos hqt] at hfq
      exact hfq.symm
    · right
      rw [if_neg hqt] at hfq
      rwa [← hfq]
  · rcases List.mem_append.mp hp with hmem | hmem
    · right
      exact hmem
    · left
      simpa using hmem

/-- `hubSet` with a non-empty slice preserves the no-empty-groups property. -/
theorem hubNoEmpty_hubSet (h : HubConns) (t : String) (v : List Conn)
    (hne : hubNoEmpty h = true) (hv : v.isEmpty = false) :
    hubNoEmpty (hubSet h t v) = true := by
  unfold hubNoEmpty at *
  rw [List.all_eq_true] at *
  intro p hp
  rcases mem_hubSet h t v p hp with heq | hmem
  · rw [heq]
    simpa using hv
  · exact hne p hmem

/-- `hubRemoveConn` preserves the no-empty-groups property. -/
theorem hubNoEmpty_hubRemoveConn (h : HubConns) (t : String) (c : Conn)
    (hne : hubNoEmpty h = true) : hubNoEmpty (hubRemoveConn h t c) = true := by
  unfold hubRemoveConn hubRemoveStep
  cases hrf : removeFirst (hubGet h t) c with
  | none =>
      unfold hubDropIfEmpty
      split
      · unfold hubNoEmpty hubDelete
        rw [List.all_eq_true] at *
        intro p hp
        exact List.all_eq_true.mp hne p (List.mem_filter.mp hp).1
      · exact hne
  | some conns' =>
      unfold hubDropIfEmpty
      split
      next hcond =>
        unfold hubNoEmpty hubDelete
        rw [List.all_eq_true]
        intro p hp
        have hp' := List.mem_filter.mp hp
        rcases mem_hubSet h t conns' p hp'.1 with heq | hmem
        · exfalso
          have hkey : (p.1 == t) = true := by
            rw [heq]
            exact beq_self_eq_true t
          have := hp'.2
          rw [hkey] at this
          simp at this
        · exact List.all_eq_true.mp hne p hmem
      next hcond =>
        have hv : conns'.isEmpty = false := by
          have hg : hubGet (hubSet h t conns') t = conns' := hubGet_hubSet h t conns'
          rw [hg] at hcond
          exact Bool.eq_false_iff.mpr hcond
        exact hubNoEmpty_hubSet h t conns' hne hv

/-- Each hub event preserves the no-empty-groups property. -/
theorem hubNoEmpty_applyHubOp (h : HubConns) (op : HubOp)
    (hne : hubNoEmpty h = true) : hubNoEmpty (applyHubOp h op) = true := by
  cases op with
  | subscribe t c =>
      refine hubNoEmpty_hubSet h t _ hne ?_
      simp
  | unsubscribe t c => exact hubNoEmpty_hubRemoveConn h t c hne

/-- The no-empty-groups property holds after any event sequence from a given
hub state. -/
theorem hubNoEmpty_foldl (ops : List HubOp) (h : HubConns)
    (hne : hubNoEmpty h = true) :
    hubNoEmpty (ops.foldl applyHubOp h) = true := by
  induction ops generalizing h with
  | nil => exact hne
  | cons op rest ih => exact ih _ (hubNoEmpty_applyHubOp h op hne)

/-- C9: when `removeConn` leaves a trip's subscriber slice empty the map entry
for that trip is discarded (the result either has a non-empty slice for the
trip or no entry at all for it), and after any sequence of subscribe and
unsubscribe events from a fresh hub, no trip key maps to an empty slice. -/
theorem hub_discards_empty_groups :
    (∀ (h : HubConns) (tripId : String) (c : Conn),
        (hubGet (hubRemoveConn h tripId c) tripId).isEmpty = false
          ∨ (hubRemoveConn h tripId c).all (fun p => !(p.1 == tripId)) = true)
      ∧ ∀ (ops : List HubOp), hubNoEmpty (runHubOps ops) = true := by
  constructor
  · intro h tripId c
    unfold hubRemoveConn hubDropIfEmpty
    split
    next hcond =>
      right
      unfold hubDelete
      rw [List.all_eq_true]
      intro p hp
      exact (List.mem_filter.mp hp).2
    next hcond =>
      left
      exact Bool.eq_false_iff.mpr hcond
  · intro ops
    exact hubNoEmpty_foldl ops [] rfl

/-! ### Table lemmas for the conditional updates -/

/-- A map whose function fixes every element of the list is the identity. -/
theorem map_eq_self_of_fix {α : Type} (f : α → α) :
    ∀ (l : List α), (∀ x ∈ l, f x = x) → l.map f = l := by
  intro l
  induction l with
  | nil => intro _; rfl
  | cons a l ih =>
      intro h
      simp [h a (List.mem_cons_self a l),
        ih (fun x hx => h x (List.mem_cons_of_mem a hx))]

/-- A row not matching the `AssignDriver` WHERE clause is untouched. -/
theorem assignRow_fix (tripId driverId : String) (t : Trip)
    (h : assignPred tripId t = false) : assignRow tripId driverId t = t := by
  simp [assignRow, h]

/-- The `AssignDriver` UPDATE never changes a primary key. -/
theorem assignRow_id (tripId driverId : String) (t : Trip) :
    (assignRow tripId driverId t).id = t.id := by
  unfold assignRow
  split <;> rfl

/-- A row not matching the `Start` WHERE clause is untouched. -/
theorem startRow_fix (tripId : String) (now : Nat) (t : Trip)
    (h : startPred tripId t = false) : startRow tripId now t = t := by
  simp [startRow, h]

/-- The `Start` UPDATE never changes a primary key. -/
theorem startRow_id (tripId : String) (now : Nat) (t : Trip) :
    (startRow tripId now t).id = t.id := by
  unfold startRow
  split <;> rfl

/-- The `End` UPDATE never changes a primary key. -/
theorem endRow_id (tripId : String) (fare : ℝ) (now : Nat) (t : Trip) :
    (endRow tripId fare now t).id = t.id := by
  unfold endRow
  split <;> rfl

/-- `GetByID` commutes with a row rewrite that preserves primary keys. -/
theorem findTrip_map (db : Db) (tripId : String) (f : Trip → Trip)
    (hf : ∀ u, (f u).id = u.id) :
    findTrip (db.map f) tripId = (findTrip db tripId).map f := by
  unfold findTrip
  rw [List.find?_map]
  have hc : ((fun u : Trip => u.id == tripId) ∘ f)
      = fun u : Trip => u.id == tripId := by
    funext u
    simp [Function.comp, hf u]
  rw [hc]

/-- When no row matches the `AssignDriver` WHERE clause, the operation is a
conflict with no effect on the table. -/
theorem assignDriver_no_match (db : Db) (tripId driverId : String)
    (hno : ∀ t ∈ db, assignPred tripId t = false) :
    AssignDriver db tripId driverId = (db, .error .conflict) := by
  have hn : (db.filter (assignPred tripId)).length = 0 := by
    rw [List.length_eq_zero, List.filter_eq_nil_iff]
    intro a ha
    simp [hno a ha]
  have hmap : db.map (assignRow tripId driverId) = db :=
    map_eq_self_of_fix _ db fun x hx => assignRow_fix _ _ _ (hno x hx)
  unfold AssignDriver assignUpdate
  rw [if_pos hn, hmap]

/-- After a successful `AssignDriver` UPDATE, no row matches its WHERE clause
again: updated rows are `DRIVER_ASSIGNED` and untouched rows never matched. -/
theorem assignPred_false_after (db : Db) (tripId driverId : String) :
    ∀ u ∈ db.map (assignRow tripId driverId), assignPred tripId u = false := by
  intro u hu
  obtain ⟨v, hv, hfv⟩ := List.mem_map.mp hu
  by_cases hvp : assignPred tripId v = true
  · have : u = { v with driverId := some driverId, status := .DRIVER_ASSIGNED } := by
      rw [← hfv]
      simp [assignRow, hvp]
    rw [this]
    simp [assignPred]
  · have : u = v := by
      rw [← hfv]
      exact assignRow_fix _ _ _ (Bool.eq_false_iff.mpr hvp)
    rw [this]
    exact Bool.eq_false_iff.mpr hvp

/-- C5: `AssignDriver` succeeds exactly from `REQUESTED`/`MATCHING` — on a hit
it returns the row with the driver set and status `DRIVER_ASSIGNED` and writes
that row back; when no row matches it fails with the conflict error leaving the
table unchanged; and a second call against the now-`DRIVER_ASSIGNED` table
fails with the same conflict without modifying anything. -/
theorem assign_driver_cas :
    ∀ (db : Db) (tripId driverId : String),
      ((∀ t ∈ db, assignPred tripId t = false) →
          AssignDriver db tripId driverId = (db, .error .conflict))
        ∧ (∀ t, findTrip db tripId = some t →
            (t.status = .REQUESTED ∨ t.status = .MATCHING) →
            (AssignDriver db tripId driverId).2
                = .ok { t with driverId := some driverId, status := .DRIVER_ASSIGNED }
              ∧ findTrip (AssignDriver db tripId driverId).1 tripId
                  = some { t with driverId := some driverId, status := .DRIVER_ASSIGNED }
              ∧ AssignDriver (AssignDriver db tripId driverId).1 tripId driverId
                  = ((AssignDriver db tripId driverId).1, .error .conflict)) := by
  intro db tripId driverId
  constructor
  · exact assignDriver_no_match db tripId driverId
  · intro t hfind hst
    have hfind0 : List.find? (fun u : Trip => u.id == tripId) db = some t := hfind
    have htid : (t.id == tripId) = true := by
      simpa using List.find?_some hfind0
    have hmem : t ∈ db := List.mem_of_find?_eq_some hfind0
    have hpred : assignPred tripId t = true := by
      unfold assignPred
      rw [htid]
      rcases hst with h | h <;> simp [h]
    have hn : ¬((assignUpdate db tripId driverId).2 = 0) := by
      show ¬((db.filter (assignPred tripId)).length = 0)
      rw [List.length_eq_zero, List.filter_eq_nil_iff]
      intro hno
      exact absurd hpred (hno t hmem)
    have hup : assignRow tripId driverId t
        = { t with driverId := some driverId, status := .DRIVER_ASSIGNED } := by
      simp [assignRow, hpred]
    have hfind' : findTrip (db.map (assignRow tripId driverId)) tripId
        = some { t with driverId := some driverId, status := .DRIVER_ASSIGNED } := by
      rw [findTrip_map db tripId _ (assignRow_id tripId driverId), hfind,
        Option.map_some', hup]
    refine ⟨?_, ?_, ?_⟩
    · have h2 : (AssignDriver db tripId driverId).2
          = (if (assignUpdate db tripId driverId).2 = 0
             then (Except.error LedgerError.conflict : Except LedgerError Trip)
             else match findTrip (assignUpdate db tripId driverId).1 tripId with
                  | some u => Except.ok u
                  | none => Except.error LedgerError.notFound) := rfl
      have hsc : (assignUpdate db tripId driverId).1
          = db.map (assignRow tripId driverId) := rfl
      rw [h2, if_neg hn, hsc, hfind']
    · exact hfind'
    · exact assignDriver_no_match _ tripId driverId
        (assignPred_false_after db tripId driverId)

/-- A concrete `REQUESTED` trip for evaluating the ledger operations. -/
noncomputable def reqTrip : Trip :=
  { id := "t1", riderId := "r1", driverId := none
    pickupLat := 0, pickupLng := 0, dropLat := 0, dropLng := 0
    fare := none, status := .REQUESTED
    requestedAt := some 0, startedAt := none, completedAt := none
    createdAt := 0 }

/-- Witness for C5: assigning driver `d1` to the fresh `REQUESTED` trip `t1`
succeeds, writes back `DRIVER_ASSIGNED`, and a second assignment attempt
conflicts without changing the table. -/
theorem assign_driver_cas_witness :
    (AssignDriver [reqTrip] "t1" "d1").2
        = .ok { reqTrip with driverId := some "d1", status := .DRIVER_ASSIGNED }
      ∧ findTrip (AssignDriver [reqTrip] "t1" "d1").1 "t1"
          = some { reqTrip with driverId := some "d1", status := .DRIVER_ASSIGNED }
      ∧ AssignDriver (AssignDriver [reqTrip] "t1" "d1").1 "t1" "d1"
          = ((AssignDriver [reqTrip] "t1" "d1").1, .error .conflict) :=
  (assign_driver_cas [reqTrip] "t1" "d1").2 reqTrip rfl (Or.inl rfl)

/-- When no row matches the `Start` WHERE clause, the operation is a conflict
with no effect on the table. -/
theorem start_no_match (db : Db) (tripId : String) (now : Nat)
    (hno : ∀ t ∈ db, startPred tripId t = false) :
    Start db tripId now = (db, .error .conflict) := by
  have hn : (db.filter (startPred tripId)).length = 0 := by
    rw [List.length_eq_zero, List.filter_eq_nil_iff]
    intro a ha
    simp [hno a ha]
  have hmap : db.map (startRow tripId now) = db :=
    map_eq_self_of_fix _ db fun x hx => startRow_fix _ _ _ (hno x hx)
  unfold Start startUpdate
  rw [if_pos hn, hmap]

/-- C1 (counterexample): the database update run by `End` is keyed on the id
alone. Applied to a table whose only `t1` row is still `REQUESTED`, it reports
one affected row and overwrites the row to `COMPLETED` — so the `End`
transition's update does not compare the `(id, status)` pre-state. -/
theorem end_update_not_cas :
    (endUpdate [reqTrip] "t1" 50 1).2 = 1
      ∧ (endUpdate [reqTrip] "t1" 50 1).1
          = [{ reqTrip with
                status := .COMPLETED
                fare := some 50
                completedAt := some 1 }]
      ∧ reqTrip.status = .REQUESTED :=
  ⟨rfl, rfl, rfl⟩

/-- C1 (amended): `AssignDriver` and `Start` perform their transitions as a
compare-and-swap on the `(id, status)` pair — when no row matches the expected
pre-state the update affects zero rows and the operation fails with a conflict,
leaving the table unchanged. `End` checks the `STARTED` pre-state by reading
the row before an update keyed only on the id; the `End` operation likewise
fails with no side effect on the table when the pre-state does not match, but
its database update itself carries no status condition. -/
theorem ledger_transition_preconditions :
    ∀ (db : Db) (tripId driverId : String) (distKm : Option ℝ) (now : Nat),
      ((∀ t ∈ db, assignPred tripId t = false) →
          AssignDriver db tripId driverId = (db, .error .conflict))
        ∧ ((∀ t ∈ db, startPred tripId t = false) →
            Start db tripId now = (db, .error .conflict))
        ∧ (findTrip db tripId = none →
            End db tripId distKm now = (db, .error .notFound))
        ∧ (∀ t, findTrip db tripId = some t → t.status ≠ .STARTED →
            End db tripId distKm now = (db, .error .invalidState)) := by
  intro db tripId driverId distKm now
  refine ⟨assignDriver_no_match db tripId driverId, start_no_match db tripId now, ?_, ?_⟩
  · intro hnone
    unfold End
    rw [hnone]
  · intro t hfind hne
    unfold End
    rw [hfind]
    simp only [if_neg hne]

/-- Witness for C1: ending the still-`REQUESTED` trip `t1` fails with the
invalid-state error and leaves the table untouched. -/
theorem ledger_transition_preconditions_witness :
    End [reqTrip] "t1" none 5 = ([reqTrip], .error .invalidState) :=
  (ledger_transition_preconditions [reqTrip] "t1" "d1" none 5).2.2.2 reqTrip rfl
    (by decide)

/-- C4: for a trip in `STARTED` state, `End` computes the distance as the
explicit argument when present and positive and as the pickup-to-drop
haversine otherwise, sets `fare = 50 + km*12`, and writes and returns the row
with status `COMPLETED`, the fare, and the completion timestamp; the fare
formula yields `356` at `25.5` km and `50` at `0` km. -/
theorem end_completes_trip :
    ∀ (db : Db) (tripId : String) (distKm : Option ℝ) (now : Nat) (t : Trip),
      findTrip db tripId = some t →
      t.status = .STARTED →
      ((End db tripId distKm now).2
          = .ok { t with
                   status := .COMPLETED
                   fare := some (fareFor (tripDistanceKm t distKm))
                   completedAt := some now }
        ∧ findTrip (End db tripId distKm now).1 tripId
            = some { t with
                      status := .COMPLETED
                      fare := some (fareFor (tripDistanceKm t distKm))
                      completedAt := some now }
        ∧ (∀ d : ℝ, 0 < d → tripDistanceKm t (some d) = d)
        ∧ (∀ d : ℝ, ¬0 < d →
            tripDistanceKm t (some d)
              = haversineKm t.pickupLat t.pickupLng t.dropLat t.dropLng)
        ∧ tripDistanceKm t none
            = haversineKm t.pickupLat t.pickupLng t.dropLat t.dropLng
        ∧ fareFor (25.5 : ℝ) = 356
        ∧ fareFor (0 : ℝ) = 50) := by
  intro db tripId distKm now t hfind hst
  have hfind0 : List.find? (fun u : Trip => u.id == tripId) db = some t := hfind
  have htid : (t.id == tripId) = true := by
    simpa using List.find?_some hfind0
  have hrow : endRow tripId (fareFor (tripDistanceKm t distKm)) now t
      = { t with
           status := .COMPLETED
           fare := some (fareFor (tripDistanceKm t distKm))
           completedAt := some now } := by
    simp [endRow, htid]
  have hfind' :
      findTrip (db.map (endRow tripId (fareFor (tripDistanceKm t distKm)) now)) tripId
        = some { t with
                  status := .COMPLETED
                  fare := some (fareFor (tripDistanceKm t distKm))
                  completedAt := some now } := by
    rw [findTrip_map db tripId _ (endRow_id tripId _ now), hfind, Option.map_some', hrow]
  have hEnd : End db tripId distKm now
      = ((endUpdate db tripId (fareFor (tripDistanceKm t distKm)) now).1,
         match findTrip (endUpdate db tripId (fareFor (tripDistanceKm t distKm)) now).1
             tripId with
         | some t' => .ok t'
         | none => .error .notFound) := by
    unfold End
    rw [hfind]
    simp only [if_pos hst]
  have hsc : (endUpdate db tripId (fareFor (tripDistanceKm t distKm)) now).1
      = db.map (endRow tripId (fareFor (tripDistanceKm t distKm)) now) := rfl
  refine ⟨?_, ?_, ?_, ?_, rfl, ?_, ?_⟩
  · rw [hEnd]
    simp only [hsc, hfind']
  · rw [hEnd]
    simp only [hsc, hfind']
  · intro d hd
    simp [tripDistanceKm, hd]
  · intro d hd
    simp [tripDistanceKm, hd]
  · unfold fareFor
    norm_num
  · unfold fareFor
    norm_num

/-- A concrete `STARTED` trip for evaluating `End`. -/
noncomputable def startedTrip : Trip :=
  { id := "t2", riderId := "r1", driverId := some "d1"
    pickupLat := 0, pickupLng := 0, dropLat := 0, dropLng := 0
    fare := none, status := .STARTED
    requestedAt := some 0, startedAt := some 2, completedAt := none
    createdAt := 0 }

/-- Witness for C4: ending the `STARTED` trip `t2` with an explicit distance
returns the completed row with its computed fare. -/
theorem end_completes_trip_witness :
    (End [startedTrip] "t2" (some 3) 5).2
        = .ok { startedTrip with
                 status := .COMPLETED
                 fare := some (fareFor (tripDistanceKm startedTrip (some 3)))
                 completedAt := some 5 } :=
  (end_completes_trip [startedTrip] "t2" (some 3) 5 startedTrip rfl rfl).1

/-- C7: the geo query returns the ids of an entry list that is sorted by
non-decreasing distance from the query point, contains only stored drivers
within the requested radius, and is truncated to the limit; on an empty index
the result is the empty list (a valid, non-error outcome). -/
theorem nearest_within_radius_spec :
    ∀ (idx : GeoIndex) (lat lng radiusKm : ℝ) (count : Nat),
      GetNearbyDrivers idx lat lng radiusKm count
          = (geoSearchEntries idx lat lng radiusKm count).map (fun e => e.driverId)
        ∧ List.Sorted (fun a b => geoDistKm lat lng a ≤ geoDistKm lat lng b)
            (geoSearchEntries idx lat lng radiusKm count)
        ∧ List.Forall (fun e => geoDistKm lat lng e ≤ radiusKm)
            (geoSearchEntries idx lat lng radiusKm count)
        ∧ List.Forall (fun e => e ∈ idx) (geoSearchEntries idx lat lng radiusKm count)
        ∧ (GetNearbyDrivers idx lat lng radiusKm count).length ≤ count
        ∧ GetNearbyDrivers [] lat lng radiusKm count = [] := by
  intro idx lat lng radiusKm count
  haveI : IsTotal GeoEntry (fun a b => geoDistKm lat lng a ≤ geoDistKm lat lng b) :=
    ⟨fun a b => le_total _ _⟩
  haveI : IsTrans GeoEntry (fun a b => geoDistKm lat lng a ≤ geoDistKm lat lng b) :=
    ⟨fun _ _ _ hab hbc => le_trans hab hbc⟩
  have hmem : ∀ e ∈ geoSearchEntries idx lat lng radiusKm count,
      e ∈ idx.filter (fun e => decide (geoDistKm lat lng e ≤ radiusKm)) := by
    intro e he
    have h1 := List.take_subset count _ he
    exact ((List.perm_insertionSort
      (fun a b => geoDistKm lat lng a ≤ geoDistKm lat lng b) _).mem_iff).mp h1
  refine ⟨rfl, ?_, ?_, ?_, ?_, by simp [GetNearbyDrivers, geoSearchEntries]⟩
  · exact List.Pairwise.sublist (List.take_sublist _ _)
      (List.sorted_insertionSort (fun a b => geoDistKm lat lng a ≤ geoDistKm lat lng b) _)
  · rw [List.forall_iff_forall_mem]
    intro e he
    have := (List.mem_filter.mp (hmem e he)).2
    exact of_decide_eq_true this
  · rw [List.forall_iff_forall_mem]
    intro e he
    exact (List.mem_filter.mp (hmem e he)).1
  · unfold GetNearbyDrivers geoSearchEntries
    rw [List.length_map, List.length_take]
    exact min_le_left _ _

/-! ### The status lifecycle across operation sequences -/

/-- `GetByID` commutes with an id-preserving row rewrite, successful case. -/
theorem findTrip_after_map (db : Db) (id : String) (t : Trip) (f : Trip → Trip)
    (hf : ∀ u, (f u).id = u.id) (h : findTrip db id = some t) :
    findTrip (db.map f) id = some (f t) := by
  rw [findTrip_map db id f hf, h, Option.map_some']

/-- The table `End` leaves behind: unchanged unless the trip exists in
`STARTED` state, in which case the id-keyed completion update runs. -/
theorem End_fst (db : Db) (eid : String) (dist : Option ℝ) (now : Nat) :
    (End db eid dist now).1
      = match findTrip db eid with
        | none => db
        | some u =>
            if u.status = .STARTED
            then db.map (endRow eid (fareFor (tripDistanceKm u dist)) now)
            else db := by
  unfold End
  cases hfe : findTrip db eid with
  | none => rfl
  | some u =>
      by_cases hus : u.status = .STARTED
      · simp only [if_pos hus]
        rfl
      · simp only [if_neg hus]

/-- A successful transition never moves a state off itself. -/
theorem stepNext_ne (s s' : TripStatus) (h : stepNext s = some s') : s ≠ s' := by
  cases s <;> simp [stepNext] at h <;> (subst h; decide)

/-- After one ledger operation, an existing trip still exists and its status
either stayed put or advanced by exactly one `stepNext` step. -/
theorem step_applyOp (db : Db) (op : Op) (id : String) (t : Trip)
    (h : findTrip db id = some t) :
    ∃ t', findTrip (applyOp db op) id = some t'
      ∧ (t'.status = t.status ∨ stepNext t.status = some t'.status) := by
  cases op with
  | create cid rid req now =>
      have happ : applyOp db (.create cid rid req now) = (Request db cid rid req now).1 :=
        rfl
      rw [happ]
      unfold Request
      split
      · exact ⟨t, h, Or.inl rfl⟩
      · refine ⟨t, ?_, Or.inl rfl⟩
        unfold findTrip at h ⊢
        rw [List.find?_append, h]
        rfl
  | assign aid did =>
      refine ⟨assignRow aid did t,
        findTrip_after_map db id t _ (assignRow_id aid did) h, ?_⟩
      unfold assignRow
      split
      next hp =>
        right
        have hp' : t.status = .REQUESTED ∨ t.status = .MATCHING := by
          have := (Bool.and_eq_true _ _).mp hp
          simpa using this.2
        rcases hp' with h1 | h1 <;> rw [h1] <;> rfl
      next => exact Or.inl rfl
  | consumerAssign aid did =>
      refine ⟨assignRow aid did t,
        findTrip_after_map db id t _ (assignRow_id aid did) h, ?_⟩
      unfold assignRow
      split
      next hp =>
        right
        have hp' : t.status = .REQUESTED ∨ t.status = .MATCHING := by
          have := (Bool.and_eq_true _ _).mp hp
          simpa using this.2
        rcases hp' with h1 | h1 <;> rw [h1] <;> rfl
      next => exact Or.inl rfl
  | start sid now =>
      refine ⟨startRow sid now t,
        findTrip_after_map db id t _ (startRow_id sid now) h, ?_⟩
      unfold startRow
      split
      next hp =>
        right
        have hp' : t.status = .DRIVER_ASSIGNED := by
          have := (Bool.and_eq_true _ _).mp hp
          simpa using this.2
        rw [hp']
        rfl
      next => exact Or.inl rfl
  | endTrip eid dist now =>
      have happ : applyOp db (.endTrip eid dist now) = (End db eid dist now).1 := rfl
      rw [happ, End_fst]
      cases hfe : findTrip db eid with
      | none => exact ⟨t, h, Or.inl rfl⟩
      | some u =>
          by_cases hus : u.status = .STARTED
          · simp only [if_pos hus]
            refine ⟨endRow eid (fareFor (tripDistanceKm u dist)) now t,
              findTrip_after_map db id t _ (endRow_id _ _ _) h, ?_⟩
            unfold endRow
            split
            next hid =>
              right
              have htid : t.id = id := by
                simpa using List.find?_some
                  (show List.find? (fun u : Trip => u.id == id) db = some t from h)
              have hte : t.id = eid := by simpa using hid
              have hide : id = eid := by rw [← htid, hte]
              subst hide
              have htu : t = u := by
                have : some t = some u := by rw [← h, ← hfe]
                exact Option.some.inj this
              rw [htu, hus]
              rfl
            next => exact Or.inl rfl
          · simp only [if_neg hus]
            exact ⟨t, h, Or.inl rfl⟩

/-- After one ledger operation, a trip that did not exist either still does
not exist or was just created in `REQUESTED` state. -/
theorem findTrip_applyOp_none (db : Db) (op : Op) (id : String)
    (h : findTrip db id = none) :
    findTrip (applyOp db op) id = none
      ∨ ∃ t', findTrip (applyOp db op) id = some t' ∧ t'.status = .REQUESTED := by
  cases op with
  | create cid rid req now =>
      have happ : applyOp db (.create cid rid req now) = (Request db cid rid req now).1 :=
        rfl
      rw [happ]
      unfold Request
      split
      · left
        exact h
      · unfold findTrip at h ⊢
        rw [List.find?_append, h, Option.none_or]
        by_cases hc : cid = id
        · right
          refine ⟨newTrip cid rid req now, ?_, rfl⟩
          have hb : (cid == id) = true := beq_iff_eq.mpr hc
          simp [List.find?, newTrip, hb]
        · left
          have hb : (cid == id) = false := beq_eq_false_iff_ne.mpr hc
          simp [List.find?, newTrip, hb]
  | assign aid did =>
      left
      show findTrip (db.map (assignRow aid did)) id = none
      rw [findTrip_map db id _ (assignRow_id aid did), h]
      rfl
  | consumerAssign aid did =>
      left
      show findTrip (db.map (assignRow aid did)) id = none
      rw [findTrip_map db id _ (assignRow_id aid did), h]
      rfl
  | start sid now =>
      left
      show findTrip (db.map (startRow sid now)) id = none
      rw [findTrip_map db id _ (startRow_id sid now), h]
      rfl
  | endTrip eid dist now =>
      left
      have happ : applyOp db (.endTrip eid dist now) = (End db eid dist now).1 := rfl
      rw [happ, End_fst]
      cases hfe : findTrip db eid with
      | none => exact h
      | some u =>
          by_cases hus : u.status = .STARTED
          · simp only [if_pos hus]
            rw [findTrip_map db id _ (endRow_id _ _ _), h]
            rfl
          · simp only [if_neg hus]
            exact h

/-- The lifecycle tail starting at an on-chain state begins with that state. -/
theorem chainFrom_head (s : TripStatus) (hs : inChain s = true) :
    ∃ rest, chainFrom s = s :: rest := by
  cases s
  · exact ⟨[.DRIVER_ASSIGNED, .STARTED, .COMPLETED], rfl⟩
  · exact absurd hs (by decide)
  · exact ⟨[.STARTED, .COMPLETED], rfl⟩
  · exact ⟨[.COMPLETED], rfl⟩
  · exact ⟨[], rfl⟩
  · exact absurd hs (by decide)

/-- One `stepNext` step from an on-chain state peels exactly the head of its
lifecycle tail, and lands on-chain. -/
theorem chainFrom_step (s s' : TripStatus) (hs : inChain s = true)
    (hstep : stepNext s = some s') :
    chainFrom s = s :: chainFrom s' ∧ inChain s' = true := by
  cases s
  · cases hstep
    exact ⟨rfl, rfl⟩
  · exact absurd hs (by decide)
  · cases hstep
    exact ⟨rfl, rfl⟩
  · cases hstep
    exact ⟨rfl, rfl⟩
  · cases hstep
  · exact absurd hs (by decide)

/-- Unfolding equation for `dedupConsec` on two or more elements. -/
theorem dedupConsec_cons_cons (a b : TripStatus) (l : List TripStatus) :
    dedupConsec (a :: b :: l)
      = if a = b then dedupConsec (b :: l) else a :: dedupConsec (b :: l) := rfl

/-- From a table where the trip exists with an on-chain status, the deduped
status trace starting at that status follows the remaining lifecycle. -/
theorem history_prefix_from (ops : List Op) :
    ∀ (db : Db) (id : String) (t : Trip),
      findTrip db id = some t → inChain t.status = true →
      (dedupConsec (t.status :: statusHistory db ops id)).IsPrefix
        (chainFrom t.status) := by
  induction ops with
  | nil =>
      intro db id t _ hin
      obtain ⟨rest, hrest⟩ := chainFrom_head t.status hin
      show (dedupConsec [t.status]).IsPrefix (chainFrom t.status)
      exact ⟨rest, by rw [hrest]; rfl⟩
  | cons op rest ih =>
      intro db id t hfind hin
      obtain ⟨t', hfind', hstep⟩ := step_applyOp db op id t hfind
      have hhist : statusHistory db (op :: rest) id
          = t'.status :: statusHistory (applyOp db op) rest id := by
        rw [statusHistory, hfind']
        rfl
      rw [hhist]
      rcases hstep with hsame | hnext
      · rw [dedupConsec_cons_cons, if_pos hsame.symm, ← hsame]
        exact ih (applyOp db op) id t' hfind' (by rw [hsame]; exact hin)
      · obtain ⟨hchain, hin'⟩ := chainFrom_step t.status t'.status hin hnext
        have hne : t.status ≠ t'.status := stepNext_ne _ _ hnext
        rw [dedupConsec_cons_cons, if_neg hne, hchain]
        exact (List.cons_prefix_cons).mpr ⟨rfl, ih (applyOp db op) id t' hfind' hin'⟩

/-- From a table where the trip does not exist, the deduped status trace over
any operation sequence follows the nominal lifecycle from its start. -/
theorem history_prefix (ops : List Op) :
    ∀ (db : Db) (id : String),
      findTrip db id = none →
      (dedupConsec (statusHistory db ops id)).IsPrefix statusChain := by
  induction ops with
  | nil =>
      intro db id _
      exact List.nil_prefix
  | cons op rest ih =>
      intro db id h
      rcases findTrip_applyOp_none db op id h with hnone | ⟨t', hsome, hreq⟩
      · have hhist : statusHistory db (op :: rest) id
            = statusHistory (applyOp db op) rest id := by
          rw [statusHistory, hnone]
          rfl
        rw [hhist]
        exact ih (applyOp db op) id hnone
      · have hhist : statusHistory db (op :: rest) id
            = t'.status :: statusHistory (applyOp db op) rest id := by
          rw [statusHistory, hsome]
          rfl
        rw [hhist]
        have hp := history_prefix_from rest (applyOp db op) id t' hsome
          (by rw [hreq]; rfl)
        rw [hreq] at hp ⊢
        exact hp

/-- C6: over any sequence of ledger operations (`Request`, `AssignDriver`, the
consumer update, `Start`, `End`) applied to the empty table, every trip's
sequence of distinct observed statuses is a prefix of
`REQUESTED → DRIVER_ASSIGNED → STARTED → COMPLETED` — no status is skipped or
revisited. -/
theorem trip_status_lifecycle :
    ∀ (ops : List Op) (id : String),
      (dedupConsec (statusHistory [] ops id)).IsPrefix statusChain :=
  fun ops id => history_prefix ops [] id rfl

end RideService
